import Mathlib

/-
Verification of the django_forge_ai core against its specification.

The embedding models text as `List Char` (Python `str`), Python slices as
`pySlice`, machine integers as `Nat` (all quantities here are non-negative
and never overflow in the source), and fallible Python code as
`Except`-valued functions.  External collaborators (the language-model
gateway, the vector-store client, the file system) are parameters.
-/

/-- Python slice `text[a:b]` (with the usual clamping) on a list of
characters. -/
def pySlice (text : List Char) (a b : Nat) : List Char :=
  (text.take b).drop a

/-- The `while` loop of `_chunk_text` in `tasks.py`:
`while start < len(text): chunk = text[start:start+chunk_size];
chunks.append(chunk); start = (start + chunk_size) - chunk_overlap`.
(The trailing `if start >= len(text): break` of the source is redundant
with the loop condition.)  The Python loop diverges when
`chunk_overlap >= chunk_size` (the step is non-positive); the spec rejects
that configuration at validation time (section 4.1), so the definition is
restricted to the terminating domain by the conjunct `O < S`. -/
def chunkTextAux (text : List Char) (S O start : Nat) : List (List Char) :=
  if h : start < text.length ∧ O < S then
    pySlice text start (start + S) :: chunkTextAux text S O (start + (S - O))
  else
    []
termination_by text.length - start
decreasing_by
  have hd : 0 < S - O := Nat.sub_pos_of_lt h.2
  omega

/-- The function `_chunk_text(text, chunk_size, chunk_overlap)` of
`tasks.py`: start at offset 0 and iterate the loop above. -/
def chunkText (text : List Char) (S O : Nat) : List (List Char) :=
  chunkTextAux text S O 0

/-- Ceiling division on naturals, used to state chunk-count formulas. -/
def ceilNat (a b : Nat) : Nat :=
  (a + b - 1) / b

/-- Characters treated as whitespace by Python `str.strip()` (the ASCII
ones; exotic unicode whitespace is irrelevant to the directives parsed
here). `Char.ofNat 11` and `Char.ofNat 12` are vertical tab and form
feed. -/
def pySpaceChar (c : Char) : Bool :=
  c = ' ' || c = '\t' || c = '\n' || c = '\r' || c = Char.ofNat 11 || c = Char.ofNat 12

/-- Python `s.strip()`: drop leading and trailing whitespace. -/
def pyStrip (s : List Char) : List Char :=
  ((s.dropWhile pySpaceChar).reverse.dropWhile pySpaceChar).reverse

/-- Worker for `pySplit`; structural recursion on a fuel argument that is
always sufficient because every step shortens the scanned list. -/
def pySplitAux (sep : List Char) : Nat → List Char → List Char → List (List Char)
  | 0, s, acc => [acc.reverse ++ s]
  | fuel + 1, s, acc =>
    match s with
    | [] => [acc.reverse]
    | c :: rest =>
      if sep.isPrefixOf (c :: rest) then
        acc.reverse :: pySplitAux sep fuel (List.drop sep.length (c :: rest)) []
      else
        pySplitAux sep fuel rest (c :: acc)

/-- Python `s.split(sep)` for a non-empty separator: split on each
non-overlapping occurrence, scanning left to right.  Python raises
`ValueError` on an empty separator; the callers modelled here only pass
non-empty literals, and the empty case is given the harmless value
`[s]`. -/
def pySplit (s sep : List Char) : List (List Char) :=
  if sep.isEmpty then [s]
  else pySplitAux sep (s.length + 1) s []

/-- Python substring membership `sub in s`. -/
def pyContains (sub : List Char) : List Char → Bool
  | [] => sub.isEmpty
  | c :: rest => sub.isPrefixOf (c :: rest) || pyContains sub rest

/-- Decimal rendering of a natural number, as Python string formatting of
a non-negative `int` produces it. -/
def natStr (n : Nat) : List Char :=
  (toString n).toList

/-- The ASCII single-quote character, written via its code point. -/
def squoteChar : Char :=
  Char.ofNat 39

/-- Python dict assignment `d[k] = v`: replace the value of an existing
key in place, otherwise append the new binding. -/
def pyAssocSet {α : Type} (d : List (List Char × α)) (k : List Char) (v : α) :
    List (List Char × α) :=
  if (d.lookup k).isSome then
    d.map (fun p => if p.1 = k then (k, v) else p)
  else
    d ++ [(k, v)]

/-- A tool-call directive extracted from a model response
(`{"tool": ..., "args": ...}` in `orchestrator.py`). -/
structure ToolCall where
  tool : List Char
  args : List Char
deriving DecidableEq

/-- The directive marker scanned for by `_extract_tool_call`. -/
def toolCallMarker : List Char :=
  "TOOL_CALL:".toList

/-- The function `AgentOrchestrator._extract_tool_call` of
`orchestrator.py`.  When the marker is present, none of the string
operations in the `try` block can raise (Python `split` always returns a
non-empty list, and `split(sep)[1]` exists because the marker occurs), so
the `except` branch returning `None` is unreachable; the embedding is
the total function computed by the `try` block. -/
def extractToolCall (response : List Char) : Option ToolCall :=
  if pyContains toolCallMarker response = false then
    none
  else
    let afterMarker := (pySplit response toolCallMarker).getD 1 []
    let parts := (pySplit (pyStrip afterMarker) ['\n']).getD 0 []
    let toolName := pyStrip ((pySplit parts ['(']).getD 0 [])
    let argsStr :=
      if pyContains ['('] parts then
        (pySplit ((pySplit parts ['(']).getD 1 []) [')']).getD 0 []
      else []
    some { tool := toolName, args := argsStr }

/-- A Python tool callable: called on an argument string, it either
returns a result string or raises (modelled by `Except.error` carrying
`str(e)`). -/
abbrev PyTool := List Char → Except (List Char) (List Char)

/-- The tool `AgentOrchestrator._web_search` (a pure placeholder). -/
def webSearchTool (query : List Char) : List Char :=
  "Web search results for: ".toList ++ query ++
    " (placeholder - implement with real search API)".toList

/-- The tool `AgentOrchestrator._database_query` (a pure placeholder). -/
def databaseQueryTool (query : List Char) : List Char :=
  "Database query results for: ".toList ++ query ++
    " (placeholder - implement with real DB queries)".toList

/-- The tool `AgentOrchestrator._file_read`; the file system is the
oracle `fs`, and any exception it raises is caught and rendered, so the
tool itself never raises. -/
def fileReadTool (fs : List Char → Except (List Char) (List Char))
    (filePath : List Char) : List Char :=
  match fs filePath with
  | Except.ok content => content
  | Except.error e => "Error reading file: ".toList ++ e

/-- The method `AgentOrchestrator._initialize_tools`: walk the config's
tool-name list and register the three recognized names; any other name is
skipped (no entry is created for it). -/
def initializeTools (fs : List Char → Except (List Char) (List Char))
    (toolNames : List (List Char)) : List (List Char × PyTool) :=
  toolNames.foldl
    (fun tools name =>
      if name = "web_search".toList then
        pyAssocSet tools name (fun q => Except.ok (webSearchTool q))
      else if name = "database_query".toList then
        pyAssocSet tools name (fun q => Except.ok (databaseQueryTool q))
      else if name = "file_read".toList then
        pyAssocSet tools name (fun p => Except.ok (fileReadTool fs p))
      else tools)
    []

/-- One `AgentTaskLog` row (`agents/models.py`): iteration number, action
label and observation text.  Timestamps are elided. -/
structure LogEntry where
  iteration : Nat
  action : List Char
  observation : List Char
deriving DecidableEq

/-- The message rendered when `_execute_tool` is asked for a name absent
from the registry. -/
def toolNotAvailableMsg (name : List Char) : List Char :=
  "Error: Tool ".toList ++ [squoteChar] ++ name ++ [squoteChar] ++
    " not available".toList

/-- The method `AgentOrchestrator._execute_tool`: an unknown tool name
returns an error message immediately (creating no log entry); a known
tool is invoked, and its result or its exception text is logged under
`tool_{name}` or `tool_{name}_error` respectively. -/
def executeTool (tools : List (List Char × PyTool)) (tc : ToolCall)
    (iteration : Nat) (logs : List LogEntry) : List Char × List LogEntry :=
  match tools.lookup tc.tool with
  | none => (toolNotAvailableMsg tc.tool, logs)
  | some f =>
    match f tc.args with
    | Except.ok result =>
        (result,
         logs ++ [{ iteration := iteration,
                    action := "tool_".toList ++ tc.tool,
                    observation := result }])
    | Except.error e =>
        let msg := "Error executing tool ".toList ++ tc.tool ++ ": ".toList ++ e
        (msg,
         logs ++ [{ iteration := iteration,
                    action := "tool_".toList ++ tc.tool ++ "_error".toList,
                    observation := msg }])

/-- One conversation message (`{"role": ..., "content": ...}`). -/
structure Message where
  role : List Char
  content : List Char
deriving DecidableEq

/-- The persisted fields of an `AgentTask` touched by the orchestrator
(`agents/models.py`); timestamps are elided. -/
structure TaskRec where
  status : List Char
  result : List Char
  error : List Char
  iterationsUsed : Nat
deriving DecidableEq

/-- The mutable state threaded through `_agent_loop`: the task row, the
conversation history, the accumulated `AgentTaskLog` rows, and an
instrumentation counter of language-model-gateway calls. -/
structure LoopSt where
  task : TaskRec
  history : List Message
  logs : List LogEntry
  llmCalls : Nat
deriving DecidableEq

/-- The method `AgentOrchestrator._get_agent_response`: one gateway call
plus an `llm_response` log entry.  The gateway is abstracted as an oracle
indexed by the call count; the prompt text it is passed in the source
does not influence the properties proved here, and indexing by call makes
the oracle maximally nondeterministic. -/
def getAgentResponse (llm : Nat → List Char) (st : LoopSt) (iteration : Nat) :
    List Char × LoopSt :=
  let response := llm st.llmCalls
  (response,
   { st with
       llmCalls := st.llmCalls + 1,
       logs := st.logs ++ [{ iteration := iteration,
                             action := "llm_response".toList,
                             observation := response }] })

/-- The method `AgentOrchestrator._update_conversation_with_tool_result`. -/
def updateConversation (history : List Message) (response toolResult : List Char) :
    List Message :=
  history ++ [{ role := "assistant".toList, content := response },
              { role := "user".toList,
                content := "Tool result: ".toList ++ toolResult }]

/-- The method `AgentOrchestrator._update_task_iteration`:
`task.iterations_used = iteration; task.save(...)`. -/
def updateTaskIteration (st : LoopSt) (iteration : Nat) : LoopSt :=
  { st with task := { st.task with iterationsUsed := iteration } }

/-- The body of `AgentOrchestrator._agent_loop`'s
`for iteration in range(1, max_iterations + 1)` loop.  Returns the final
state together with `some response` when the final-answer branch runs,
or `none` when the loop exhausts its range. -/
def agentLoopGo (llm : Nat → List Char) (tools : List (List Char × PyTool))
    (maxIterations iteration : Nat) (st : LoopSt) : LoopSt × Option (List Char) :=
  if iteration ≤ maxIterations then
    let pr := getAgentResponse llm st iteration
    match extractToolCall pr.1 with
    | some tc =>
        let tr := executeTool tools tc iteration pr.2.logs
        let st2 := updateTaskIteration
          { pr.2 with logs := tr.2,
                      history := updateConversation pr.2.history pr.1 tr.1 }
          iteration
        agentLoopGo llm tools maxIterations (iteration + 1) st2
    | none =>
        (updateTaskIteration pr.2 iteration, some pr.1)
  else (st, none)
termination_by maxIterations + 1 - iteration

/-- The fallback text of `conversation_history[-1].get("content", ...)`.
In the source every queued message has a `content` key and the history is
non-empty (it starts with the initial user prompt), so this default and
the `getLast? = none` branch below are both unreachable. -/
def taskIncompleteMsg : List Char :=
  "Task incomplete - max iterations reached".toList

/-- The method `AgentOrchestrator._agent_loop`: seed the history with the
initial user prompt, run the loop from iteration 1, and on exhaustion
return the content of the last queued message. -/
def agentLoop (llm : Nat → List Char) (tools : List (List Char × PyTool))
    (maxIterations : Nat) (task : TaskRec) (initialPrompt : List Char) :
    LoopSt × List Char :=
  let st0 : LoopSt :=
    { task := task,
      history := [{ role := "user".toList, content := initialPrompt }],
      logs := [],
      llmCalls := 0 }
  match agentLoopGo llm tools maxIterations 1 st0 with
  | (st, some r) => (st, r)
  | (st, none) =>
      (st,
       match st.history.getLast? with
       | some m => m.content
       | none => taskIncompleteMsg)

/-- The method `AgentTask.mark_running` (timestamps elided). -/
def markRunning (t : TaskRec) : TaskRec :=
  { t with status := "running".toList }

/-- The method `AgentTask.mark_completed` (timestamps elided). -/
def markCompleted (t : TaskRec) (result : List Char) : TaskRec :=
  { t with status := "completed".toList, result := result }

/-- The method `AgentTask.mark_failed` (timestamps elided). -/
def markFailed (t : TaskRec) (e : List Char) : TaskRec :=
  { t with status := "failed".toList, error := e }

/-- The method `AgentOrchestrator.execute_task`.  The `try` block —
building the two prompts and running `_agent_loop` — is abstracted as
`body`: `Except.ok result` when it returns, `Except.error (str e)` when
any of its steps raises.  The second component of the result is what the
caller sees: the returned result, or the re-raised exception. -/
def executeTask (body : Except (List Char) (List Char)) (task : TaskRec) :
    TaskRec × Except (List Char) (List Char) :=
  let t1 := markRunning task
  match body with
  | Except.ok result => (markCompleted t1 result, Except.ok result)
  | Except.error e => (markFailed t1 e, Except.error e)

/-- A value in a Python metadata dict: the dicts built by `tasks.py` hold
non-negative ints (ids, indices) and strings. -/
inductive MetaVal where
  | int : Nat → MetaVal
  | str : List Char → MetaVal
deriving DecidableEq

/-- A Python dict with string keys, as an association list in insertion
order with unique keys (maintained by `pyAssocSet`). -/
abbrev PyDict := List (List Char × MetaVal)

/-- The persisted fields of a `Document` touched by
`generate_embeddings_task` (`rag_system/models.py`). -/
structure DocumentRec where
  id : Nat
  title : List Char
  content : List Char
  embeddingStatus : List Char
  isEmbedded : Bool
  chunkCount : Nat
deriving DecidableEq

/-- One persisted `DocumentChunk` row (`rag_system/models.py`),
parameterized by the embedding-vector type `V`. -/
structure ChunkRow (V : Type) where
  documentId : Nat
  chunkIndex : Nat
  content : List Char
  startChar : Nat
  endChar : Nat
  embedding : V
  metadata : PyDict
deriving DecidableEq

/-- The argument tuple of one `connector.add_embeddings(...)` call. -/
structure UpsertArgs (V : Type) where
  embeddings : List V
  texts : List (List Char)
  metadatas : List PyDict
  ids : List (List Char)
deriving DecidableEq

/-- The Python exceptions relevant to the ingestion task. -/
inductive PyExc where
  | doesNotExist
  | nameError : List Char → PyExc
  | notImplementedError : List Char → PyExc
deriving DecidableEq

/-- Everything observable about one run of `generate_embeddings_task`:
the sequence of `embedding_status` values persisted (per document id),
the `DocumentChunk` rows created, the vector-store upsert calls issued,
the final state of the document row, and the value returned or the
exception propagated to the Celery caller. -/
structure GenOutcome (V : Type) where
  statusWrites : List (Nat × List Char)
  chunkRows : List (ChunkRow V)
  upserts : List (UpsertArgs V)
  finalDoc : Option DocumentRec
  result : Except PyExc (List Char)

/-- The per-chunk vector metadata built by `generate_embeddings_task`:
`{'document_id': ..., 'document_title': ..., 'chunk_index': ...,
**chunk.metadata}` (dict merge, later keys overriding). -/
def chunkVectorMetadata {V : Type} (doc : DocumentRec) (row : ChunkRow V) : PyDict :=
  let base : PyDict :=
    [("document_id".toList, MetaVal.int doc.id),
     ("document_title".toList, MetaVal.str doc.title),
     ("chunk_index".toList, MetaVal.int row.chunkIndex)]
  row.metadata.foldl (fun acc kv => pyAssocSet acc kv.1 kv.2) base

/-- The vector-store id built by `generate_embeddings_task`:
`f"doc_{document.id}_chunk_{chunk.chunk_index}"`. -/
def vectorPointId (docId chunkIndex : Nat) : List Char :=
  "doc_".toList ++ natStr docId ++ "_chunk_".toList ++ natStr chunkIndex

/-- The Celery task `generate_embeddings_task` of `tasks.py`.  `db` is
the document store, `S`/`O` the configured chunk size and overlap, and
`embed` the gateway's embedding call (modelled total: gateway and
vector-store failures are external and not at issue in the claims).  When
the document lookup raises `Document.DoesNotExist`, the local variable
`document` is still unbound, so the `except` handler's
`document.embedding_status = 'failed'` itself raises `NameError` — that
exception, not the lookup error, reaches the caller, and no status write
happens. -/
def generateEmbeddingsTask {V : Type} (db : List DocumentRec) (S O : Nat)
    (embed : List Char → V) (docId : Nat) : GenOutcome V :=
  match db.find? (fun d => d.id = docId) with
  | none =>
      { statusWrites := [],
        chunkRows := [],
        upserts := [],
        finalDoc := none,
        result := Except.error (PyExc.nameError "document".toList) }
  | some document =>
      let chunks := chunkText document.content S O
      let chunkRows := chunks.enum.map (fun p =>
        { documentId := document.id,
          chunkIndex := p.1,
          content := p.2,
          startChar := p.1 * S,
          endChar := min ((p.1 + 1) * S) document.content.length,
          embedding := embed p.2,
          metadata := [("chunk_index".toList, MetaVal.int p.1)] : ChunkRow V })
      let embeddings := chunkRows.map (fun row => row.embedding)
      let texts := chunkRows.map (fun row => row.content)
      let metadatas := chunkRows.map (fun row => chunkVectorMetadata document row)
      let ids := chunkRows.map (fun row => vectorPointId document.id row.chunkIndex)
      { statusWrites := [(document.id, "processing".toList),
                         (document.id, "completed".toList)],
        chunkRows := chunkRows,
        upserts := [{ embeddings := embeddings, texts := texts,
                      metadatas := metadatas, ids := ids }],
        finalDoc := some { document with
                             isEmbedded := true,
                             embeddingStatus := "completed".toList,
                             chunkCount := chunks.length },
        result := Except.ok ("Successfully generated embeddings for ".toList ++
                    natStr chunks.length ++ " chunks".toList) }

/-- Pointwise zip of four lists, truncating at the shortest (Python
`zip`). -/
def zip4 {α β γ δ : Type} : List α → List β → List γ → List δ →
    List (α × β × γ × δ)
  | a :: as, b :: bs, c :: cs, d :: ds => (a, b, c, d) :: zip4 as bs cs ds
  | _, _, _, _ => []

/-- One record stored by `ChromaDBConnector.add_embeddings`. -/
structure ChromaRecord (V : Type) where
  id : List Char
  document : List Char
  metadata : PyDict
  embedding : V
deriving DecidableEq

/-- The method `ChromaDBConnector.add_embeddings` of `vector_utils.py`:
default the optional ids and metadatas, then hand the four lists to
`collection.add`, which stores them pairwise under the given string
ids. -/
def chromaAddEmbeddings {V : Type} (embeddings : List V)
    (texts : List (List Char)) (metadatas : Option (List PyDict))
    (ids : Option (List (List Char))) : List (ChromaRecord V) :=
  let ids := match ids with
    | none => (List.range texts.length).map (fun i => "doc_".toList ++ natStr i)
    | some given => given
  let metadatas := match metadatas with
    | none => List.replicate texts.length ([] : PyDict)
    | some given => given
  (zip4 embeddings texts metadatas ids).map (fun q =>
    match q with
    | (embedding, text, metadata, recId) =>
        { id := recId, document := text, metadata := metadata,
          embedding := embedding })

/-- One point upserted by `QdrantConnector.add_embeddings`; Qdrant point
ids here are the integers the connector assigns. -/
structure QdrantPoint (V : Type) where
  id : Nat
  vector : V
  payload : PyDict
deriving DecidableEq

/-- The method `QdrantConnector.add_embeddings` of `vector_utils.py`:
default the optional ids and metadatas, then build
`PointStruct(id=i, vector=embedding, payload={**metadata, 'text': text})`
for `i, (embedding, text, metadata, point_id) in enumerate(zip(...))` —
the supplied `point_id` is never used — and upsert those points. -/
def qdrantAddEmbeddings {V : Type} (embeddings : List V)
    (texts : List (List Char)) (metadatas : Option (List PyDict))
    (ids : Option (List (List Char))) : List (QdrantPoint V) :=
  let ids := match ids with
    | none => (List.range texts.length).map (fun i => "doc_".toList ++ natStr i)
    | some given => given
  let metadatas := match metadatas with
    | none => List.replicate texts.length ([] : PyDict)
    | some given => given
  (zip4 embeddings texts metadatas ids).enum.map (fun q =>
    match q with
    | (i, (embedding, text, metadata, _pointId)) =>
        { id := i, vector := embedding,
          payload := pyAssocSet metadata ("text".toList) (MetaVal.str text) })

/-- The method `PGVectorConnector.add_embeddings` of `vector_utils.py`:
unconditionally raises `NotImplementedError`. -/
def pgvectorAddEmbeddings {V : Type} (_embeddings : List V)
    (_texts : List (List Char)) (_metadatas : Option (List PyDict))
    (_ids : Option (List (List Char))) : Except PyExc Unit :=
  Except.error (PyExc.notImplementedError
    ("PGVector integration requires custom Django models with pgvector fields. See Django documentation for pgvector integration.".toList))

theorem countAux_step (m d : Nat) (hm : 0 < m) (hd : 0 < d) :
    (m + d - 1) / d = (m - d + d - 1) / d + 1 := by
  have h1 : m + d - 1 = (m - 1) + d := by omega
  rw [h1, Nat.add_div_right _ hd]
  rcases Nat.lt_or_ge m d with h | h
  · have h2 : m - d + d - 1 = d - 1 := by omega
    have h3 : (m - 1) / d = 0 := Nat.div_eq_of_lt (by omega)
    have h4 : (d - 1) / d = 0 := Nat.div_eq_of_lt (by omega)
    rw [h2, h3, h4]
  · have h2 : m - d + d - 1 = m - 1 := by omega
    rw [h2]

theorem chunkTextAux_spec (text : List Char) (S O : Nat) (hSO : O < S) :
    ∀ (n start : Nat), text.length - start ≤ n →
    chunkTextAux text S O start =
      (List.range ((text.length - start + (S - O) - 1) / (S - O))).map
        (fun k => pySlice text (start + k * (S - O)) (start + k * (S - O) + S)) := by
  intro n
  induction n with
  | zero =>
      intro start hle
      have hns : ¬ (start < text.length ∧ O < S) := by omega
      rw [chunkTextAux, dif_neg hns]
      have h0 : text.length - start = 0 := by omega
      rw [h0]
      have h1 : (0 + (S - O) - 1) / (S - O) = 0 := Nat.div_eq_of_lt (by omega)
      rw [h1, List.range_zero, List.map_nil]
  | succ n ih =>
      intro start hle
      by_cases hs : start < text.length
      · rw [chunkTextAux, dif_pos ⟨hs, hSO⟩]
        rw [ih (start + (S - O)) (by omega)]
        have hd : 0 < S - O := by omega
        have hcnt : (text.length - start + (S - O) - 1) / (S - O)
            = (text.length - (start + (S - O)) + (S - O) - 1) / (S - O) + 1 := by
          have hm : 0 < text.length - start := by omega
          have hstep := countAux_step (text.length - start) (S - O) hm hd
          have heq : text.length - (start + (S - O)) = text.length - start - (S - O) := by
            omega
          rw [heq]
          exact hstep
        rw [hcnt, List.range_succ_eq_map, List.map_cons, List.map_map]
        congr 1
        · simp
        · apply List.map_congr_left
          intro k hk
          have h1 : start + (S - O) + k * (S - O) = start + (k + 1) * (S - O) := by ring
          simp [Function.comp, Nat.succ_eq_add_one, h1]
      · rw [chunkTextAux, dif_neg (fun hcon => hs hcon.1)]
        have h0 : text.length - start = 0 := by omega
        rw [h0]
        have h1 : (0 + (S - O) - 1) / (S - O) = 0 := Nat.div_eq_of_lt (by omega)
        rw [h1, List.range_zero, List.map_nil]

theorem chunkText_eq_map (text : List Char) (S O : Nat) (hSO : O < S) :
    chunkText text S O =
      (List.range (ceilNat text.length (S - O))).map
        (fun k => pySlice text (k * (S - O)) (k * (S - O) + S)) := by
  rw [chunkText, chunkTextAux_spec text S O hSO text.length 0 (by omega)]
  simp [ceilNat]

theorem chunkText_length (text : List Char) (S O : Nat) (hSO : O < S) :
    (chunkText text S O).length = ceilNat text.length (S - O) := by
  rw [chunkText_eq_map text S O hSO, List.length_map, List.length_range]

theorem ceilNat_pos_eq (a b : Nat) (ha : 0 < a) (hb : 0 < b) :
    ceilNat a b = (a - 1) / b + 1 := by
  unfold ceilNat
  have h1 : a + b - 1 = (a - 1) + b := by omega
  rw [h1, Nat.add_div_right _ hb]

theorem chunkText_get (text : List Char) (S O : Nat) (hSO : O < S)
    (k : Nat) (hk : k < (chunkText text S O).length) :
    (chunkText text S O).get ⟨k, hk⟩ =
      pySlice text (k * (S - O)) (k * (S - O) + S) := by
  have h := chunkText_eq_map text S O hSO
  rw [List.get_of_eq h]
  simp

theorem chunkText_coverage (text : List Char) (S O : Nat) (hSO : O < S)
    (p : Nat) (hp : p < text.length) :
    ∃ k, k < (chunkText text S O).length ∧
      k * (S - O) ≤ p ∧ p < k * (S - O) + S := by
  have hd : 0 < S - O := by omega
  refine ⟨p / (S - O), ?_, ?_, ?_⟩
  · rw [chunkText_length text S O hSO,
      ceilNat_pos_eq text.length (S - O) (by omega) hd]
    have h1 : p / (S - O) ≤ (text.length - 1) / (S - O) :=
      Nat.div_le_div_right (by omega)
    omega
  · exact Nat.div_mul_le_self p (S - O)
  · have h1 := Nat.div_add_mod p (S - O)
    have h2 : p % (S - O) < S - O := Nat.mod_lt p hd
    have h3 : p < p / (S - O) * (S - O) + (S - O) := by
      nlinarith [h1, h2]
    omega

theorem chunkText_single (text : List Char) (S O : Nat) (hSO : O < S)
    (h1 : 0 < text.length) (h2 : text.length ≤ S - O) :
    chunkText text S O = [pySlice text 0 S] := by
  have hd : 0 < S - O := by omega
  have hc : ceilNat text.length (S - O) = 1 := by
    rw [ceilNat_pos_eq text.length (S - O) h1 hd]
    have : (text.length - 1) / (S - O) = 0 := Nat.div_eq_of_lt (by omega)
    omega
  rw [chunkText_eq_map text S O hSO, hc]
  have hr : List.range 1 = [0] := by decide
  rw [hr]
  norm_num

theorem chunkText_two (text : List Char) (S O : Nat) (hSO : O < S)
    (h1 : S - O < text.length) (h2 : text.length ≤ 2 * (S - O)) :
    chunkText text S O = [pySlice text 0 S, pySlice text (S - O) (S - O + S)] := by
  have hd : 0 < S - O := by omega
  have hc : ceilNat text.length (S - O) = 2 := by
    rw [ceilNat_pos_eq text.length (S - O) (by omega) hd]
    have hge : 1 ≤ (text.length - 1) / (S - O) := by
      rw [Nat.le_div_iff_mul_le hd]; omega
    have hlt : (text.length - 1) / (S - O) < 2 := by
      rw [Nat.div_lt_iff_lt_mul hd]; omega
    omega
  rw [chunkText_eq_map text S O hSO, hc]
  have hr : List.range 2 = [0, 1] := by decide
  rw [hr]
  simp

theorem chunkText_len25 (text : List Char) (h : text.length = 25) :
    chunkText text 10 2 =
      [pySlice text 0 10, pySlice text 8 18, pySlice text 16 26,
       pySlice text 24 34] := by
  have hc : ceilNat text.length (10 - 2) = 4 := by rw [h]; decide
  rw [chunkText_eq_map text 10 2 (by decide), hc]
  have hr : List.range 4 = [0, 1, 2, 3] := by decide
  rw [hr]
  norm_num

theorem pySlice_length (text : List Char) (a b : Nat) :
    (pySlice text a b).length = min b text.length - a := by
  rw [pySlice, List.length_drop, List.length_take]

/-- C2 counterexample: the claimed chunk-count formula
`ceil((len(T) - O) / (S - O))` is wrong at `len(T) = 25`, `S = 10`,
`O = 2`: the chunker emits 4 chunks (starts 0, 8, 16, 24) while the
formula gives `ceil(23 / 8) = 3`. -/
theorem chunker_count_formula_counterexample :
    (chunkText (List.replicate 25 'a') 10 2).length = 4 ∧
    ceilNat ((List.replicate 25 'a').length - 2) (10 - 2) = 3 ∧
    ¬ (chunkText (List.replicate 25 'a') 10 2).length =
        ceilNat ((List.replicate 25 'a').length - 2) (10 - 2) := by
  have h4 : (chunkText (List.replicate 25 'a') 10 2).length = 4 := by
    rw [chunkText_length (List.replicate 25 'a') 10 2 (by decide)]
    simp [ceilNat]
  have h3 : ceilNat ((List.replicate 25 'a').length - 2) (10 - 2) = 3 := by
    simp [ceilNat]
  exact ⟨h4, h3, by omega⟩

/-- C2 (amended): for `0 ≤ O < S` the chunker's output covers the text
contiguously with no gaps — chunk `k` is exactly `T[k*(S-O) : k*(S-O)+S]`
and every character position lies inside some chunk's window — and the
number of chunks is `ceil(len(T) / (S - O))` (not
`ceil((len(T) - O) / (S - O))` as originally claimed). -/
theorem chunker_coverage_and_count (text : List Char) (S O : Nat) (hSO : O < S) :
    (chunkText text S O).length = ceilNat text.length (S - O) ∧
    (∀ k (hk : k < (chunkText text S O).length),
       (chunkText text S O).get ⟨k, hk⟩ =
         pySlice text (k * (S - O)) (k * (S - O) + S)) ∧
    (∀ p, p < text.length → ∃ k, k < (chunkText text S O).length ∧
       k * (S - O) ≤ p ∧ p < k * (S - O) + S) := by
  refine ⟨chunkText_length text S O hSO, ?_, ?_⟩
  · intro k hk
    exact chunkText_get text S O hSO k hk
  · intro p hp
    exact chunkText_coverage text S O hSO p hp

/-- C2 witness: the amended statement instantiated at a 25-character text
with chunk size 10 and overlap 2. -/
theorem chunker_coverage_and_count_witness :
    (2 : Nat) < 10 ∧
    ((chunkText (List.replicate 25 'b') 10 2).length =
      ceilNat (List.replicate 25 'b').length (10 - 2) ∧
    (∀ k (hk : k < (chunkText (List.replicate 25 'b') 10 2).length),
       (chunkText (List.replicate 25 'b') 10 2).get ⟨k, hk⟩ =
         pySlice (List.replicate 25 'b') (k * (10 - 2)) (k * (10 - 2) + 10)) ∧
    (∀ p, p < (List.replicate 25 'b').length →
       ∃ k, k < (chunkText (List.replicate 25 'b') 10 2).length ∧
         k * (10 - 2) ≤ p ∧ p < k * (10 - 2) + 10)) :=
  ⟨by decide, chunker_coverage_and_count (List.replicate 25 'b') 10 2 (by decide)⟩

/-- C3: with chunk size 10 and overlap 2 on a text of length 25, the
chunker emits exactly the slices at start offsets 0, 8, 16, 24 (each of
width up to 10), and the final chunk has length 1. -/
theorem chunker_scenario_len25 (text : List Char) (h : text.length = 25) :
    chunkText text 10 2 =
      [pySlice text 0 10, pySlice text 8 18, pySlice text 16 26,
       pySlice text 24 34] ∧
    ((chunkText text 10 2).getLast?).map List.length = some 1 := by
  have hc := chunkText_len25 text h
  refine ⟨hc, ?_⟩
  rw [hc]
  simp [pySlice_length, h]

/-- C4 counterexample: a directive with no closing parenthesis
(`TOOL_CALL: web_search(query`) is NOT treated as "no tool call" — the
parser returns the tool `web_search` with args `query`, because Python's
`split(sep)` returns the whole string when the separator is absent and
nothing in the `try` block raises.  A directive with no parentheses at
all likewise yields a tool call with empty args. -/
theorem extract_malformed_counterexample :
    extractToolCall ("TOOL_CALL: web_search(query".toList) =
      some { tool := "web_search".toList, args := "query".toList } ∧
    extractToolCall ("TOOL_CALL: web_search(query".toList) ≠ none ∧
    extractToolCall ("TOOL_CALL: web_search".toList) =
      some { tool := "web_search".toList, args := [] } := by
  exact ⟨by decide, by decide, by decide⟩

/-- C4 (amended): tool-call extraction returns a tool call exactly when
the `TOOL_CALL:` marker occurs in the response; malformed directives
(missing a closing parenthesis, or missing parentheses entirely) still
produce a tool call without raising, so the agent loop takes the tool
path for them — only marker-free responses take the final-answer path. -/
theorem extract_none_iff_marker_absent (response : List Char) :
    (extractToolCall response).isSome = pyContains toolCallMarker response := by
  cases h : pyContains toolCallMarker response <;> simp [extractToolCall, h]

/-- C3 witness: the scenario instantiated at a concrete 25-character
text. -/
theorem chunker_scenario_len25_witness :
    (List.replicate 25 'c').length = 25 ∧
    (chunkText (List.replicate 25 'c') 10 2 =
      [pySlice (List.replicate 25 'c') 0 10, pySlice (List.replicate 25 'c') 8 18,
       pySlice (List.replicate 25 'c') 16 26, pySlice (List.replicate 25 'c') 24 34] ∧
    ((chunkText (List.replicate 25 'c') 10 2).getLast?).map List.length = some 1) :=
  ⟨by decide, chunker_scenario_len25 (List.replicate 25 'c') (by decide)⟩

theorem zip4_map_fourth {α β γ δ : Type} (as : List α) (bs : List β)
    (cs : List γ) (ds : List δ) (h1 : as.length = ds.length)
    (h2 : bs.length = ds.length) (h3 : cs.length = ds.length) :
    (zip4 as bs cs ds).map (fun q => q.2.2.2) = ds := by
  induction ds generalizing as bs cs with
  | nil =>
      have ha : as = [] := List.length_eq_zero.mp h1
      have hb : bs = [] := List.length_eq_zero.mp h2
      have hc : cs = [] := List.length_eq_zero.mp h3
      subst ha; subst hb; subst hc; rfl
  | cons d ds ih =>
      cases as with
      | nil => simp at h1
      | cons a as =>
        cases bs with
        | nil => simp at h2
        | cons b bs =>
          cases cs with
          | nil => simp at h3
          | cons c cs =>
            simp only [zip4, List.map_cons]
            rw [ih as bs cs (by simpa using h1) (by simpa using h2)
              (by simpa using h3)]

theorem zip4_length_eq {α β γ δ : Type} (as : List α) (bs : List β)
    (cs : List γ) (ds : List δ) (h1 : as.length = ds.length)
    (h2 : bs.length = ds.length) (h3 : cs.length = ds.length) :
    (zip4 as bs cs ds).length = ds.length := by
  induction ds generalizing as bs cs with
  | nil =>
      have ha : as = [] := List.length_eq_zero.mp h1
      subst ha; rfl
  | cons d ds ih =>
      cases as with
      | nil => simp at h1
      | cons a as =>
        cases bs with
        | nil => simp at h2
        | cons b bs =>
          cases cs with
          | nil => simp at h3
          | cons c cs =>
            simp only [zip4, List.length_cons]
            rw [ih as bs cs (by simpa using h1) (by simpa using h2)
              (by simpa using h3)]

theorem enum_map_fst_comp {α β : Type} (l : List α) (g : Nat → β) :
    l.enum.map (fun p => g p.1) = (List.range l.length).map g := by
  have h : (fun p : Nat × α => g p.1) = g ∘ Prod.fst := rfl
  rw [h, ← List.map_map, List.enum_map_fst]

theorem chroma_ids_eq {V : Type} (es : List V) (ts : List (List Char))
    (ms : List PyDict) (ids : List (List Char)) (h1 : es.length = ids.length)
    (h2 : ts.length = ids.length) (h3 : ms.length = ids.length) :
    (chromaAddEmbeddings es ts (some ms) (some ids)).map (fun r => r.id) = ids := by
  simp only [chromaAddEmbeddings, List.map_map]
  have hcg : ∀ q ∈ zip4 es ts ms ids,
      ((fun r : ChromaRecord V => r.id) ∘
        (fun q : V × List Char × PyDict × List Char =>
          match q with
          | (embedding, text, metadata, recId) =>
              ({ id := recId, document := text, metadata := metadata,
                 embedding := embedding } : ChromaRecord V))) q = q.2.2.2 := by
    rintro ⟨e, t, m, recId⟩ _
    rfl
  rw [List.map_congr_left hcg]
  exact zip4_map_fourth es ts ms ids h1 h2 h3

theorem qdrant_ids_eq {V : Type} (es : List V) (ts : List (List Char))
    (ms : List PyDict) (ids : List (List Char)) (h1 : es.length = ids.length)
    (h2 : ts.length = ids.length) (h3 : ms.length = ids.length) :
    (qdrantAddEmbeddings es ts (some ms) (some ids)).map (fun pt => pt.id) =
      List.range ids.length := by
  simp only [qdrantAddEmbeddings, List.map_map]
  have hcg : ∀ q ∈ (zip4 es ts ms ids).enum,
      ((fun pt : QdrantPoint V => pt.id) ∘
        (fun q : Nat × V × List Char × PyDict × List Char =>
          match q with
          | (i, (embedding, text, metadata, _pointId)) =>
              ({ id := i, vector := embedding,
                 payload := pyAssocSet metadata ("text".toList)
                   (MetaVal.str text) } : QdrantPoint V))) q = q.1 := by
    rintro ⟨i, e, t, m, pid⟩ _
    rfl
  rw [List.map_congr_left hcg]
  rw [List.enum_map_fst, zip4_length_eq es ts ms ids h1 h2 h3]

theorem chunkVectorMetadata_eval {V : Type} (doc : DocumentRec)
    (row : ChunkRow V)
    (h : row.metadata = [("chunk_index".toList, MetaVal.int row.chunkIndex)]) :
    chunkVectorMetadata doc row =
      [("document_id".toList, MetaVal.int doc.id),
       ("document_title".toList, MetaVal.str doc.title),
       ("chunk_index".toList, MetaVal.int row.chunkIndex)] := by
  have e1 : ("document_id".toList = "chunk_index".toList) = False :=
    eq_false (by decide)
  have e2 : ("document_title".toList = "chunk_index".toList) = False :=
    eq_false (by decide)
  have e3 : ("chunk_index".toList = "chunk_index".toList) = True :=
    eq_true rfl
  have b1 : ("chunk_index".toList == "document_id".toList) = false := by decide
  have b2 : ("chunk_index".toList == "document_title".toList) = false := by decide
  have b3 : ("chunk_index".toList == "chunk_index".toList) = true := by decide
  have hl : List.lookup "chunk_index".toList
      [("document_id".toList, MetaVal.int doc.id),
       ("document_title".toList, MetaVal.str doc.title),
       ("chunk_index".toList, MetaVal.int row.chunkIndex)] =
      some (MetaVal.int row.chunkIndex) := by
    simp only [List.lookup, b1, b2, b3]
  simp only [chunkVectorMetadata, h, List.foldl_cons, List.foldl_nil]
  rw [pyAssocSet, hl]
  simp [e1, e2, e3]

/-- C7 counterexample: invoking a tool name absent from the registry
creates NO `AgentTaskLog` entry — `_execute_tool` returns the
not-available message before reaching either logging statement — so it is
false that every invocation produces its own log entry. -/
theorem unknown_tool_logging_counterexample :
    executeTool [] { tool := "my_tool".toList, args := [] } 1
        [{ iteration := 1, action := "llm_response".toList,
           observation := "r".toList }] =
      (toolNotAvailableMsg "my_tool".toList,
       [{ iteration := 1, action := "llm_response".toList,
          observation := "r".toList }]) ∧
    (executeTool [] { tool := "my_tool".toList, args := [] } 1
        [{ iteration := 1, action := "llm_response".toList,
           observation := "r".toList }]).2.length = 1 := by
  exact ⟨rfl, rfl⟩

/-- C7 (amended): an invocation of a REGISTERED tool produces exactly one
log entry of its own — `tool_{name}` on success, `tool_{name}_error` when
the tool raises — and both actions are distinct from `llm_response`;
invoking an unregistered name returns the explicit
`Error: Tool '{name}' not available` message without raising, but creates
no log entry. -/
theorem tool_invocation_logging_amended (tools : List (List Char × PyTool))
    (tc : ToolCall) (iteration : Nat) (logs : List LogEntry) :
    (tools.lookup tc.tool = none →
       executeTool tools tc iteration logs = (toolNotAvailableMsg tc.tool, logs)) ∧
    (∀ f r, tools.lookup tc.tool = some f → f tc.args = Except.ok r →
       executeTool tools tc iteration logs =
         (r, logs ++ [{ iteration := iteration,
                        action := "tool_".toList ++ tc.tool,
                        observation := r }])) ∧
    (∀ f e, tools.lookup tc.tool = some f → f tc.args = Except.error e →
       executeTool tools tc iteration logs =
         ("Error executing tool ".toList ++ tc.tool ++ ": ".toList ++ e,
          logs ++ [{ iteration := iteration,
                     action := "tool_".toList ++ tc.tool ++ "_error".toList,
                     observation := "Error executing tool ".toList ++ tc.tool ++
                       ": ".toList ++ e }])) ∧
    ("tool_".toList ++ tc.tool ≠ "llm_response".toList ∧
     "tool_".toList ++ tc.tool ++ "_error".toList ≠ "llm_response".toList) := by
  refine ⟨?_, ?_, ?_, ?_, ?_⟩
  · intro hnone
    rw [executeTool, hnone]
  · intro f r hsome hok
    simp only [executeTool, hsome, hok]
  · intro f e hsome herr
    simp only [executeTool, hsome, herr]
  · intro hcon
    have h2 : some 't' = some 'l' := by
      calc some 't' = ("tool_".toList ++ tc.tool).head? := rfl
        _ = "llm_response".toList.head? := by rw [hcon]
        _ = some 'l' := rfl
    exact absurd h2 (by decide)
  · intro hcon
    have h2 : some 't' = some 'l' := by
      calc some 't' = ("tool_".toList ++ tc.tool ++ "_error".toList).head? := rfl
        _ = "llm_response".toList.head? := by rw [hcon]
        _ = some 'l' := rfl
    exact absurd h2 (by decide)

/-- C7 witness: the amended statement applied to a registry with one
succeeding tool and one raising tool, and to an unregistered name. -/
theorem tool_invocation_logging_amended_witness :
    executeTool [("good".toList, fun _ => Except.ok "ok-result".toList)]
        { tool := "missing".toList, args := [] } 1 [] =
      (toolNotAvailableMsg "missing".toList, []) ∧
    executeTool [("good".toList, fun _ => Except.ok "ok-result".toList)]
        { tool := "good".toList, args := [] } 2 [] =
      ("ok-result".toList,
       [{ iteration := 2, action := "tool_".toList ++ "good".toList,
          observation := "ok-result".toList }]) ∧
    executeTool [("bad".toList, fun _ => Except.error "boom".toList)]
        { tool := "bad".toList, args := [] } 3 [] =
      ("Error executing tool ".toList ++ "bad".toList ++ ": ".toList ++
         "boom".toList,
       [{ iteration := 3,
          action := "tool_".toList ++ "bad".toList ++ "_error".toList,
          observation := "Error executing tool ".toList ++ "bad".toList ++
            ": ".toList ++ "boom".toList }]) :=
  ⟨(tool_invocation_logging_amended
      [("good".toList, fun _ => Except.ok "ok-result".toList)]
      { tool := "missing".toList, args := [] } 1 []).1 rfl,
   (tool_invocation_logging_amended
      [("good".toList, fun _ => Except.ok "ok-result".toList)]
      { tool := "good".toList, args := [] } 2 []).2.1 _ _ rfl rfl,
   (tool_invocation_logging_amended
      [("bad".toList, fun _ => Except.error "boom".toList)]
      { tool := "bad".toList, args := [] } 3 []).2.2.1 _ _ rfl rfl⟩

/-- C8: ingesting a document whose content is empty produces zero chunk
rows and finishes with `embedding_status = completed` and
`chunk_count = 0` — a no-op success, not a failure. -/
theorem empty_document_ingestion {V : Type} (db : List DocumentRec)
    (S O : Nat) (embed : List Char → V) (docId : Nat)
    (document : DocumentRec)
    (hfind : db.find? (fun d => d.id = docId) = some document)
    (hempty : document.content = []) :
    (generateEmbeddingsTask db S O embed docId).chunkRows = [] ∧
    (generateEmbeddingsTask db S O embed docId).finalDoc =
      some { document with isEmbedded := true,
                           embeddingStatus := "completed".toList,
                           chunkCount := 0 } ∧
    (generateEmbeddingsTask db S O embed docId).result =
      Except.ok ("Successfully generated embeddings for ".toList ++
        natStr 0 ++ " chunks".toList) := by
  have hch : chunkText document.content S O = [] := by
    rw [hempty, chunkText, chunkTextAux]
    simp
  simp [generateEmbeddingsTask, hfind, hch]

/-- C8 witness: a concrete empty document ingested with the default-shaped
configuration. -/
theorem empty_document_ingestion_witness :
    ([{ id := 5, title := "t".toList, content := [],
        embeddingStatus := "pending".toList, isEmbedded := false,
        chunkCount := 0 }] : List DocumentRec).find?
        (fun d => d.id = 5) =
      some { id := 5, title := "t".toList, content := [],
             embeddingStatus := "pending".toList, isEmbedded := false,
             chunkCount := 0 } ∧
    (generateEmbeddingsTask
        [{ id := 5, title := "t".toList, content := [],
           embeddingStatus := "pending".toList, isEmbedded := false,
           chunkCount := 0 }] 1000 200 (fun _ => (0 : Nat)) 5).chunkRows = [] ∧
    (generateEmbeddingsTask
        [{ id := 5, title := "t".toList, content := [],
           embeddingStatus := "pending".toList, isEmbedded := false,
           chunkCount := 0 }] 1000 200 (fun _ => (0 : Nat)) 5).finalDoc =
      some { id := 5, title := "t".toList, content := [],
             embeddingStatus := "completed".toList, isEmbedded := true,
             chunkCount := 0 } :=
  ⟨by decide,
   (empty_document_ingestion
      [{ id := 5, title := "t".toList, content := [],
         embeddingStatus := "pending".toList, isEmbedded := false,
         chunkCount := 0 }] 1000 200 (fun _ => (0 : Nat)) 5
      { id := 5, title := "t".toList, content := [],
        embeddingStatus := "pending".toList, isEmbedded := false,
        chunkCount := 0 } (by decide) rfl).1,
   (empty_document_ingestion
      [{ id := 5, title := "t".toList, content := [],
         embeddingStatus := "pending".toList, isEmbedded := false,
         chunkCount := 0 }] 1000 200 (fun _ => (0 : Nat)) 5
      { id := 5, title := "t".toList, content := [],
        embeddingStatus := "pending".toList, isEmbedded := false,
        chunkCount := 0 } (by decide) rfl).2.1⟩

/-- C9: `execute_task` marks the task `completed` with the loop's result
when the body returns, and on any exception marks it `failed` with the
exception text in the error field and re-raises the same exception to the
caller. -/
theorem execute_task_outcomes (body : Except (List Char) (List Char))
    (task : TaskRec) :
    (∀ r, body = Except.ok r →
       (executeTask body task).1.status = "completed".toList ∧
       (executeTask body task).1.result = r ∧
       (executeTask body task).2 = Except.ok r) ∧
    (∀ e, body = Except.error e →
       (executeTask body task).1.status = "failed".toList ∧
       (executeTask body task).1.error = e ∧
       (executeTask body task).2 = Except.error e) := by
  constructor
  · rintro r rfl
    exact ⟨rfl, rfl, rfl⟩
  · rintro e rfl
    exact ⟨rfl, rfl, rfl⟩

/-- C9 witness: both outcomes at concrete bodies. -/
theorem execute_task_outcomes_witness :
    ((executeTask (Except.ok "done".toList)
        { status := "pending".toList, result := [], error := [],
          iterationsUsed := 0 }).1.status = "completed".toList ∧
     (executeTask (Except.ok "done".toList)
        { status := "pending".toList, result := [], error := [],
          iterationsUsed := 0 }).1.result = "done".toList ∧
     (executeTask (Except.ok "done".toList)
        { status := "pending".toList, result := [], error := [],
          iterationsUsed := 0 }).2 = Except.ok "done".toList) ∧
    ((executeTask (Except.error "boom".toList)
        { status := "pending".toList, result := [], error := [],
          iterationsUsed := 0 }).1.status = "failed".toList ∧
     (executeTask (Except.error "boom".toList)
        { status := "pending".toList, result := [], error := [],
          iterationsUsed := 0 }).1.error = "boom".toList ∧
     (executeTask (Except.error "boom".toList)
        { status := "pending".toList, result := [], error := [],
          iterationsUsed := 0 }).2 = Except.error "boom".toList) :=
  ⟨(execute_task_outcomes (Except.ok "done".toList)
      { status := "pending".toList, result := [], error := [],
        iterationsUsed := 0 }).1 _ rfl,
   (execute_task_outcomes (Except.error "boom".toList)
      { status := "pending".toList, result := [], error := [],
        iterationsUsed := 0 }).2 _ rfl⟩

/-- C10: when the document lookup itself fails (no document has the given
id), the `except` handler's `document.embedding_status = 'failed'` hits
the unbound local `document` and raises `NameError`, masking the original
lookup error; no embedding status is written for any document and nothing
else happens. -/
theorem missing_document_masks_lookup_error {V : Type}
    (db : List DocumentRec) (S O : Nat) (embed : List Char → V) (docId : Nat)
    (hfind : db.find? (fun d => d.id = docId) = none) :
    (generateEmbeddingsTask db S O embed docId).result =
      Except.error (PyExc.nameError "document".toList) ∧
    (generateEmbeddingsTask db S O embed docId).result ≠
      Except.error PyExc.doesNotExist ∧
    (generateEmbeddingsTask db S O embed docId).statusWrites = [] ∧
    (generateEmbeddingsTask db S O embed docId).chunkRows = [] ∧
    (generateEmbeddingsTask db S O embed docId).upserts = [] ∧
    (generateEmbeddingsTask db S O embed docId).finalDoc = none := by
  simp [generateEmbeddingsTask, hfind]

/-- C10 witness: an empty document store and any id. -/
theorem missing_document_masks_lookup_error_witness :
    (generateEmbeddingsTask ([] : List DocumentRec) 1000 200
        (fun _ => (0 : Nat)) 1).result =
      Except.error (PyExc.nameError "document".toList) ∧
    (generateEmbeddingsTask ([] : List DocumentRec) 1000 200
        (fun _ => (0 : Nat)) 1).statusWrites = [] :=
  ⟨(missing_document_masks_lookup_error [] 1000 200 (fun _ => (0 : Nat)) 1
      rfl).1,
   (missing_document_masks_lookup_error [] 1000 200 (fun _ => (0 : Nat)) 1
      rfl).2.2.1⟩

theorem enum_map_comp {α β γ : Type} (l : List α) (f : Nat × α → β)
    (g : β → γ) (h : Nat → γ) (hfg : ∀ p : Nat × α, g (f p) = h p.1) :
    (l.enum.map f).map g = (List.range l.length).map h := by
  rw [List.map_map]
  have hc : (g ∘ f) = fun p : Nat × α => h p.1 := funext (fun p => hfg p)
  rw [hc, enum_map_fst_comp]

/-- C5 counterexample: the ids handed to the vector store have the form
`doc_{document_id}_chunk_{chunk_index}`, not `{document_id}_{chunk_index}`
as claimed; worse, the Qdrant backend ignores the supplied ids entirely
and stores each point under its integer batch position. -/
theorem upsert_id_form_counterexample :
    ((generateEmbeddingsTask
        [{ id := 7, title := "t".toList, content := "ab".toList,
           embeddingStatus := "pending".toList, isEmbedded := false,
           chunkCount := 0 }] 10 2 (fun _ => (0 : Nat)) 7).upserts.map
        (fun c => c.ids)) = [["doc_7_chunk_0".toList]] ∧
    "doc_7_chunk_0".toList ≠ "7_0".toList ∧
    qdrantAddEmbeddings [(0 : Nat)] ["ab".toList] (some [([] : PyDict)])
        (some ["doc_7_chunk_0".toList]) =
      [{ id := 0, vector := 0,
         payload := [("text".toList, MetaVal.str "ab".toList)] }] := by
  have h1 : chunkText "ab".toList 10 2 = ["ab".toList] := by
    rw [chunkText_single "ab".toList 10 2 (by decide) (by decide) (by decide)]
    decide
  have hfind : ([{ id := 7, title := "t".toList, content := "ab".toList,
                   embeddingStatus := "pending".toList, isEmbedded := false,
                   chunkCount := 0 }] : List DocumentRec).find?
        (fun d => d.id = 7) =
      some { id := 7, title := "t".toList, content := "ab".toList,
             embeddingStatus := "pending".toList, isEmbedded := false,
             chunkCount := 0 } := by decide
  refine ⟨?_, by decide, by decide⟩
  simp only [generateEmbeddingsTask, hfind, h1]
  decide

/-- C5 (amended): ingestion issues exactly one batch upsert whose ids are
`doc_{document_id}_chunk_{i}` for `i` ranging over the chunk indices, and
whose metadata for chunk `i` is exactly
`{document_id, document_title, chunk_index: i}` (the row's own metadata
`{chunk_index: i}` merges in without change; `generate_embeddings_task`
passes no caller-supplied metadata).  The Chroma backend stores the
records under exactly those ids; the Qdrant backend discards the supplied
ids and uses the integer batch positions; the PGVector backend raises
`NotImplementedError`. -/
theorem vector_upsert_amended {V : Type} (db : List DocumentRec) (S O : Nat)
    (embed : List Char → V) (docId : Nat) (document : DocumentRec)
    (hfind : db.find? (fun d => d.id = docId) = some document) :
    ∃ call : UpsertArgs V,
      (generateEmbeddingsTask db S O embed docId).upserts = [call] ∧
      call.ids = (List.range (chunkText document.content S O).length).map
        (fun i => vectorPointId document.id i) ∧
      call.metadatas = (List.range (chunkText document.content S O).length).map
        (fun i => [("document_id".toList, MetaVal.int document.id),
                   ("document_title".toList, MetaVal.str document.title),
                   ("chunk_index".toList, MetaVal.int i)]) ∧
      (chromaAddEmbeddings call.embeddings call.texts (some call.metadatas)
        (some call.ids)).map (fun r => r.id) = call.ids ∧
      (qdrantAddEmbeddings call.embeddings call.texts (some call.metadatas)
        (some call.ids)).map (fun pt => pt.id) =
        List.range (chunkText document.content S O).length ∧
      pgvectorAddEmbeddings call.embeddings call.texts (some call.metadatas)
        (some call.ids) = Except.error (PyExc.notImplementedError
          ("PGVector integration requires custom Django models with pgvector fields. See Django documentation for pgvector integration.".toList)) := by
  simp only [generateEmbeddingsTask, hfind]
  refine ⟨_, rfl, ?_, ?_, ?_, ?_, rfl⟩
  · dsimp only
    exact enum_map_comp (chunkText document.content S O) _ _ _ (fun p => rfl)
  · dsimp only
    refine enum_map_comp (chunkText document.content S O) _ _ _ (fun p => ?_)
    exact chunkVectorMetadata_eval document _ rfl
  · dsimp only
    refine chroma_ids_eq _ _ _ _ ?_ ?_ ?_ <;> simp
  · dsimp only
    rw [qdrant_ids_eq _ _ _ _ (by simp) (by simp) (by simp)]
    simp

/-- C5 witness: the amended statement at a concrete one-chunk document. -/
theorem vector_upsert_amended_witness :
    ∃ call : UpsertArgs Nat,
      (generateEmbeddingsTask
        [{ id := 7, title := "t".toList, content := "ab".toList,
           embeddingStatus := "pending".toList, isEmbedded := false,
           chunkCount := 0 }] 10 2 (fun _ => (0 : Nat)) 7).upserts = [call] ∧
      call.ids = (List.range (chunkText "ab".toList 10 2).length).map
        (fun i => vectorPointId 7 i) ∧
      call.metadatas = (List.range (chunkText "ab".toList 10 2).length).map
        (fun i => [("document_id".toList, MetaVal.int 7),
                   ("document_title".toList, MetaVal.str "t".toList),
                   ("chunk_index".toList, MetaVal.int i)]) ∧
      (chromaAddEmbeddings call.embeddings call.texts (some call.metadatas)
        (some call.ids)).map (fun r => r.id) = call.ids ∧
      (qdrantAddEmbeddings call.embeddings call.texts (some call.metadatas)
        (some call.ids)).map (fun pt => pt.id) =
        List.range (chunkText "ab".toList 10 2).length ∧
      pgvectorAddEmbeddings call.embeddings call.texts (some call.metadatas)
        (some call.ids) = Except.error (PyExc.notImplementedError
          ("PGVector integration requires custom Django models with pgvector fields. See Django documentation for pgvector integration.".toList)) :=
  vector_upsert_amended
    [{ id := 7, title := "t".toList, content := "ab".toList,
       embeddingStatus := "pending".toList, isEmbedded := false,
       chunkCount := 0 }] 10 2 (fun _ => (0 : Nat)) 7
    { id := 7, title := "t".toList, content := "ab".toList,
      embeddingStatus := "pending".toList, isEmbedded := false,
      chunkCount := 0 } (by decide)

/-- C6: the persisted offsets contradict the stored content.  For a
9-character document ingested with chunk size 10 and overlap 2, the
second chunk row holds content `"i"` — the slice `T[8:18]` — but the row
records `start_char = 10` and `end_char = 9` (computed as
`i * chunk_size` and `min((i+1) * chunk_size, len(T))`, ignoring the
overlap), so the stored content is NOT `T[start_char:end_char]`, the
model's own help text notwithstanding; chunk indices are still contiguous
from 0. -/
theorem chunk_offset_fields_bug :
    (generateEmbeddingsTask
        [{ id := 1, title := "t".toList, content := "abcdefghi".toList,
           embeddingStatus := "pending".toList, isEmbedded := false,
           chunkCount := 0 }] 10 2 (fun _ => (0 : Nat)) 1).chunkRows =
      [{ documentId := 1, chunkIndex := 0, content := "abcdefghi".toList,
         startChar := 0, endChar := 9, embedding := 0,
         metadata := [("chunk_index".toList, MetaVal.int 0)] },
       { documentId := 1, chunkIndex := 1, content := "i".toList,
         startChar := 10, endChar := 9, embedding := 0,
         metadata := [("chunk_index".toList, MetaVal.int 1)] }] ∧
    "i".toList = pySlice "abcdefghi".toList 8 18 ∧
    ¬ ("i".toList = pySlice "abcdefghi".toList 10 9) := by
  have h2e : chunkText "abcdefghi".toList 10 2 =
      ["abcdefghi".toList, "i".toList] := by
    rw [chunkText_two "abcdefghi".toList 10 2 (by decide) (by decide)
      (by decide)]
    decide
  have hfind : ([{ id := 1, title := "t".toList,
                   content := "abcdefghi".toList,
                   embeddingStatus := "pending".toList, isEmbedded := false,
                   chunkCount := 0 }] : List DocumentRec).find?
        (fun d => d.id = 1) =
      some { id := 1, title := "t".toList, content := "abcdefghi".toList,
             embeddingStatus := "pending".toList, isEmbedded := false,
             chunkCount := 0 } := by decide
  refine ⟨?_, by decide, by decide⟩
  simp only [generateEmbeddingsTask, hfind, h2e]
  decide

theorem agentLoopGo_bound (llm : Nat → List Char)
    (tools : List (List Char × PyTool)) (N : Nat) :
    ∀ (fuel iteration : Nat) (st : LoopSt), N + 1 - iteration ≤ fuel →
      1 ≤ iteration → st.task.iterationsUsed ≤ N →
      (agentLoopGo llm tools N iteration st).1.llmCalls ≤
        st.llmCalls + (N + 1 - iteration) ∧
      (agentLoopGo llm tools N iteration st).1.task.iterationsUsed ≤ N := by
  intro fuel
  induction fuel with
  | zero =>
      intro iteration st hf h1 hin
      have hgt : ¬ iteration ≤ N := by omega
      rw [agentLoopGo, if_neg hgt]
      exact ⟨Nat.le_add_right _ _, hin⟩
  | succ fuel ih =>
      intro iteration st hf h1 hin
      by_cases hle : iteration ≤ N
      · rw [agentLoopGo, if_pos hle]
        dsimp only
        cases hex : extractToolCall (getAgentResponse llm st iteration).1 with
        | none =>
            simp only [hex]
            constructor
            · simp only [updateTaskIteration, getAgentResponse]
              omega
            · simp only [updateTaskIteration]
              omega
        | some tc =>
            simp only [hex]
            have key : ∀ st2 : LoopSt, st2.llmCalls = st.llmCalls + 1 →
                st2.task.iterationsUsed = iteration →
                (agentLoopGo llm tools N (iteration + 1) st2).1.llmCalls ≤
                  st.llmCalls + (N + 1 - iteration) ∧
                (agentLoopGo llm tools N (iteration + 1)
                  st2).1.task.iterationsUsed ≤ N := by
              intro st2 hc hu
              obtain ⟨ha, hb⟩ := ih (iteration + 1) st2 (by omega) (by omega)
                (by omega)
              exact ⟨by omega, hb⟩
            exact key _ rfl rfl
      · rw [agentLoopGo, if_neg hle]
        exact ⟨Nat.le_add_right _ _, hin⟩

/-- C1: with `max_iterations = N ≥ 1` the agent loop issues at most `N`
language-model-gateway calls, even when every response carries a
tool-call directive, and `iterations_used` stays at most `N` at every
loop entry (first conjunct, an invariant over every reachable loop
state) and at the end of the run (second conjunct). -/
theorem agents_iteration_bound (llm : Nat → List Char)
    (tools : List (List Char × PyTool)) (N : Nat) (hN : 1 ≤ N) :
    (∀ (iteration : Nat) (st : LoopSt), 1 ≤ iteration →
       st.task.iterationsUsed ≤ N →
       (agentLoopGo llm tools N iteration st).1.llmCalls ≤
         st.llmCalls + (N + 1 - iteration) ∧
       (agentLoopGo llm tools N iteration st).1.task.iterationsUsed ≤ N) ∧
    (∀ (task : TaskRec) (initialPrompt : List Char),
       task.iterationsUsed = 0 →
       (agentLoop llm tools N task initialPrompt).1.llmCalls ≤ N ∧
       (agentLoop llm tools N task initialPrompt).1.task.iterationsUsed ≤ N) := by
  constructor
  · intro iteration st h1 hin
    exact agentLoopGo_bound llm tools N (N + 1 - iteration) iteration st
      (by omega) h1 hin
  · intro task initialPrompt h0
    have hb := agentLoopGo_bound llm tools N N 1
      { task := task,
        history := [{ role := "user".toList, content := initialPrompt }],
        logs := [], llmCalls := 0 }
      (by omega) (by omega) (by simp [h0])
    rcases hx : agentLoopGo llm tools N 1
      { task := task,
        history := [{ role := "user".toList, content := initialPrompt }],
        logs := [], llmCalls := 0 } with ⟨stf, r⟩
    rw [hx] at hb
    simp only at hb
    cases r with
    | none =>
        rw [agentLoop]
        simp only [hx]
        exact ⟨by omega, hb.2⟩
    | some rr =>
        rw [agentLoop]
        simp only [hx]
        exact ⟨by omega, hb.2⟩

/-- C1 witness: a gateway that always demands a tool call, with
`max_iterations = 2`. -/
theorem agents_iteration_bound_witness :
    ((agentLoopGo (fun _ => "TOOL_CALL: web_search(x)".toList) [] 2 1
        { task := { status := "running".toList, result := [], error := [],
                    iterationsUsed := 0 },
          history := [{ role := "user".toList, content := "p".toList }],
          logs := [], llmCalls := 0 }).1.llmCalls ≤ 0 + (2 + 1 - 1) ∧
     (agentLoopGo (fun _ => "TOOL_CALL: web_search(x)".toList) [] 2 1
        { task := { status := "running".toList, result := [], error := [],
                    iterationsUsed := 0 },
          history := [{ role := "user".toList, content := "p".toList }],
          logs := [], llmCalls := 0 }).1.task.iterationsUsed ≤ 2) ∧
    ((agentLoop (fun _ => "TOOL_CALL: web_search(x)".toList) [] 2
        { status := "pending".toList, result := [], error := [],
          iterationsUsed := 0 } "p".toList).1.llmCalls ≤ 2 ∧
     (agentLoop (fun _ => "TOOL_CALL: web_search(x)".toList) [] 2
        { status := "pending".toList, result := [], error := [],
          iterationsUsed := 0 } "p".toList).1.task.iterationsUsed ≤ 2) :=
  ⟨(agents_iteration_bound (fun _ => "TOOL_CALL: web_search(x)".toList) [] 2
      (by decide)).1 1
      { task := { status := "running".toList, result := [], error := [],
                  iterationsUsed := 0 },
        history := [{ role := "user".toList, content := "p".toList }],
        logs := [], llmCalls := 0 } (by decide) (by decide),
   (agents_iteration_bound (fun _ => "TOOL_CALL: web_search(x)".toList) [] 2
      (by decide)).2
      { status := "pending".toList, result := [], error := [],
        iterationsUsed := 0 } "p".toList rfl⟩
